import Mathlib

/-!
A shallow embedding of the conversation-orchestration core of the
`backend_chat_bot` repository, together with proofs about it.

The definitions below are transcribed from the JavaScript sources:

* `src/infrastructure/whatsapp/whatsappService.js`   (class `WhatsAppService`)
* `src/infrastructure/openai/openaiService.js`       (class `OpenAIService`)
* `src/application/services/UserTrackingService.js`  (class `UserTrackingService`)
* `src/application/services/ConversationStateService.js` (class `ConversationStateService`)
* `src/application/messageHandler.js`                (class `MessageHandler`)

External effects (the OpenAI provider, the WhatsApp client, `Math.random`,
the wall clock) are passed in as explicit parameters, so every definition is
a computable function.  Timestamps are milliseconds since the epoch as `Nat`,
matching `Date.now()`; JavaScript `Map`s keyed by strings are association
lists (`JsMap`) which preserve the insertion order exactly as `Map` does.
`undefined` results of JavaScript functions are modelled as `none`.
-/

/-! ### JavaScript `Map` model

`Map.set` on an existing key overwrites the value in place (keeping the
original insertion position); on a fresh key it appends.  `Map.get` returns
the value for the key, `Map.size` is the list length (keys are unique for
every map reachable through `set`). -/

namespace JsMap

def set : List (String × α) → String → α → List (String × α)
  | [], k, v => [(k, v)]
  | p :: rest, k, v => if p.1 == k then (k, v) :: rest else p :: set rest k v

def get : List (String × α) → String → Option α
  | [], _ => none
  | p :: rest, k => if p.1 == k then some p.2 else get rest k

def hasKey (m : List (String × α)) (k : String) : Bool :=
  (get m k).isSome

end JsMap

/-! ### ReconnectionManager — `WhatsAppService.handleConnectionError`

`whatsappService.js` lines 194–220.  On entry the attempt counter is
incremented, the delay `RECONNECT_DELAY * 2 ^ (reconnectAttempts - 1)` is
computed and an attempt is scheduled after that delay; a failed attempt
re-enters `handleConnectionError`, a successful one resets the counter to 0.
When the counter has reached `MAX_RECONNECT_ATTEMPTS` nothing is scheduled.

`outcomes n` tells whether the reconnection attempt scheduled while the
counter was `n` succeeds.  The result is the list of scheduled delays (in
schedule order) and the final value of `reconnectAttempts`.  The `budget`
argument of the worker equals `MAX_RECONNECT_ATTEMPTS - reconnectAttempts`,
so `budget > 0` is exactly the guard `reconnectAttempts < MAX_RECONNECT_ATTEMPTS`. -/

namespace WhatsAppService

def RECONNECT_DELAY : Nat := 5000
def MAX_RECONNECT_ATTEMPTS : Nat := 5

def handleConnectionErrorGo (outcomes : Nat → Bool) : Nat → Nat → List Nat × Nat
  | reconnectAttempts, 0 => ([], reconnectAttempts)
  | reconnectAttempts, b + 1 =>
    let attempts := reconnectAttempts + 1
    let delay := RECONNECT_DELAY * 2 ^ (attempts - 1)
    if outcomes reconnectAttempts then ([delay], 0)
    else
      let r := handleConnectionErrorGo outcomes attempts b
      (delay :: r.1, r.2)

def handleConnectionError (outcomes : Nat → Bool) (reconnectAttempts : Nat) :
    List Nat × Nat :=
  handleConnectionErrorGo outcomes reconnectAttempts
    (MAX_RECONNECT_ATTEMPTS - reconnectAttempts)

end WhatsAppService

/-! ### OpenAIService — `generateResponse`

`openaiService.js` lines 83–167.  The `while (attempts < this.retryAttempts)`
loop retries the provider call; a `429` failure waits `2 * retryDelay` and
`continue`s, a `500`/`503` failure waits `retryDelay` and `continue`s, any
other failure falls through to the `attempts === retryAttempts` check which
returns a canned fallback message on the last attempt, otherwise waits
`retryDelay` and loops.  If the loop condition becomes false the function
ends without a `return` statement, i.e. it returns `undefined` (`none` here).

`results n` is the outcome of the `n`-th provider call (0-based).  The
`budget` argument of the worker equals `retryAttempts - attempts`, so
`budget > 0` is exactly the loop guard `attempts < retryAttempts`. -/

namespace OpenAIService

def retryAttempts : Nat := 3
def retryDelay : Nat := 1000

structure OAIError where
  status : Option Nat
  code : Option String
deriving DecidableEq

structure GenOutcome where
  result : Option String
  attemptsMade : Nat
  totalDelayMs : Nat
deriving DecidableEq

def fallbackMessage (e : OAIError) : String :=
  if e.code == some "context_length_exceeded" then
    "Tu mensaje es demasiado largo. Por favor, intenta ser más conciso o divide tu consulta en mensajes más cortos."
  else if e.code == some "rate_limit_exceeded" then
    "Estamos experimentando mucha demanda en este momento. Por favor, espera unos minutos antes de intentar nuevamente."
  else if e.code == some "invalid_api_key" then
    "Lo siento, hay un problema de configuración. Por favor, contacta al administrador."
  else
    "Lo siento, hubo un problema al procesar tu consulta. Por favor, intenta nuevamente en unos momentos."

def generateResponseGo (results : Nat → Except OAIError String) :
    Nat → Nat → GenOutcome
  | _, 0 => { result := none, attemptsMade := 0, totalDelayMs := 0 }
  | attempts, b + 1 =>
    match results attempts with
    | .ok s => { result := some s, attemptsMade := 1, totalDelayMs := 0 }
    | .error e =>
      let a := attempts + 1
      if e.status == some 429 then
        let r := generateResponseGo results a b
        { result := r.result, attemptsMade := r.attemptsMade + 1,
          totalDelayMs := r.totalDelayMs + 2 * retryDelay }
      else if e.status == some 500 || e.status == some 503 then
        let r := generateResponseGo results a b
        { result := r.result, attemptsMade := r.attemptsMade + 1,
          totalDelayMs := r.totalDelayMs + retryDelay }
      else if a == retryAttempts then
        { result := some (fallbackMessage e), attemptsMade := 1, totalDelayMs := 0 }
      else
        let r := generateResponseGo results a b
        { result := r.result, attemptsMade := r.attemptsMade + 1,
          totalDelayMs := r.totalDelayMs + retryDelay }

def generateResponse (results : Nat → Except OAIError String) : GenOutcome :=
  generateResponseGo results 0 retryAttempts

end OpenAIService

/-! ### UserTrackingService — generic retry wrapper `tryOperation`

`UserTrackingService.js` lines 105–123.  Each attempt acquires the file
lock, runs the operation and releases the lock; on an error the lock is
released and the operation is retried (after an exponential jittered delay)
when the error is classified retryable (`error.code === 'EBUSY'` or the
message contains `'timeout'`) and `attempts < this.retryAttempts`.
Otherwise the error is rethrown.

`results n` is the outcome of the `n`-th full attempt (0-based).  The
returned `Nat` counts the attempts that were executed.  The `budget`
argument equals `retryAttempts - attempts`, so `budget > 0` is exactly the
guard `attempts < this.retryAttempts`. -/

namespace UserTrackingService

def retryAttempts : Nat := 5
def retryDelay : Nat := 500
def maxWaitTime : Nat := 10000

structure TrackError where
  code : Option String
  message : String
deriving DecidableEq

def isRetryableTrack (e : TrackError) : Bool :=
  e.code == some "EBUSY" || decide ("timeout".toList <:+: e.message.toList)

def tryOperationGo (results : Nat → Except TrackError α) :
    Nat → Nat → Except TrackError α × Nat
  | attempts, budget =>
    match results attempts with
    | .ok a => (.ok a, 1)
    | .error e =>
      if isRetryableTrack e then
        match budget with
        | 0 => (.error e, 1)
        | b + 1 =>
          let r := tryOperationGo results (attempts + 1) b
          (r.1, r.2 + 1)
      else (.error e, 1)

def tryOperation (results : Nat → Except TrackError α) :
    Except TrackError α × Nat :=
  tryOperationGo results 0 retryAttempts

end UserTrackingService

/-! ### UserTrackingService — `acquireLock`

`UserTrackingService.js` lines 73–103.  `acquireLock` records `startTime`,
then polls: while `fileLock.get(operation)` is set, it force-releases the
lock and exits the loop when `lockTimeout.get(operation)` is set and older
than `maxWaitTime` (the max-hold check); otherwise it throws once
`Date.now() - startTime > maxWaitTime`; otherwise it sleeps a random
`100..299` ms and polls again.  After the loop it sets the lock entry.

The environment is a probe: `lockAt n` is the state of the two lock maps
observed at the `n`-th poll (`none` = `fileLock` entry absent, lock free;
`some ts?` = lock held, with `ts?` the `lockTimeout` entry), and `jitter n`
is the value `Math.floor(Math.random() * 200) + 100` drawn before the
`n`-th sleep, so it always lies in `[100, 299]`.  `t` is `Date.now()`,
advanced only by the sleeps (the loop body has no other suspension point). -/

namespace UserTrackingService

structure LockProbe where
  lockAt : Nat → Option (Option Nat)
  jitter : Nat → {d : Nat // 100 ≤ d ∧ d < 300}

inductive AcquireResult where
  | acquired (time : Nat) (forcedRelease : Bool)
  | lockTimeout (time : Nat)
deriving DecidableEq

def AcquireResult.time : AcquireResult → Nat
  | .acquired t _ => t
  | .lockTimeout t => t

/-- The guard `lastLockTime && (Date.now() - lastLockTime > this.maxWaitTime)`. -/
def staleCheck (lastLockTime : Option Nat) (t : Nat) : Bool :=
  match lastLockTime with
  | some ts => decide (t - ts > maxWaitTime)
  | none => false

def acquireLockGo (env : LockProbe) (startTime : Nat) (t n : Nat) : AcquireResult :=
  match env.lockAt n with
  | none => .acquired t false
  | some lastLockTime =>
    if staleCheck lastLockTime t then
      .acquired t true
    else if h : t - startTime > maxWaitTime then
      .lockTimeout t
    else
      acquireLockGo env startTime (t + (env.jitter n).1) (n + 1)
termination_by startTime + maxWaitTime + 1 - t
decreasing_by
  have hj := (env.jitter n).2.1
  omega

def acquireLock (env : LockProbe) (startTime : Nat) : AcquireResult :=
  acquireLockGo env startTime startTime 0

end UserTrackingService

/-! ### ConversationStateService

`ConversationStateService.js`.  One state record per counterpart, kept in
two `Map`s (`conversations`, `lastInteraction`).  `getCurrentState` creates
an `INITIAL` record lazily and throws when `conversations.size` has reached
`maxConcurrentConversations`; `updateState` merges a partial-data object
over the current `data` (object spread: only the keys present in the patch
overwrite), stamps `lastUpdate`, and stores the result.  The periodic
persistence and cleanup timers perform file I/O only and do not affect the
properties below.

The service compares calendar days by shifting a timestamp back 5 hours
(`UTC-5`, Perú) and comparing `toDateString()`; with the host clock on UTC
two timestamps land on the same date string exactly when the shifted
epoch-day numbers agree, which is `sameUTCminus5Day`. -/

namespace ConversationStateService

inductive ConvTag where
  | INITIAL
  | WAITING_NAME
  | WAITING_LOCATION
  | WAITING_SYMPTOMS
  | COLLECTING_INFO
  | SCHEDULING
  | FINISHED
deriving DecidableEq

structure ConvData where
  name : Option String
  location : Option String
  symptoms : List String
  lastUpdate : Nat
  hasBeenGreeted : Bool
  leadProcessed : Bool
  objectionType : Option String := none
  hasShownResistance : Bool := false
  lastAppointment : Option String := none
deriving DecidableEq

structure ConvState where
  state : ConvTag
  data : ConvData
deriving DecidableEq

structure CSService where
  conversations : List (String × ConvState)
  lastInteraction : List (String × Nat)
deriving DecidableEq

def maxConcurrentConversations : Nat := 100

def initConversation (svc : CSService) (userId : String) (now : Nat) :
    ConvState × CSService :=
  let newState : ConvState :=
    { state := .INITIAL,
      data := { name := none, location := none, symptoms := [],
                lastUpdate := now, hasBeenGreeted := false, leadProcessed := false } }
  (newState,
   { conversations := JsMap.set svc.conversations userId newState,
     lastInteraction := JsMap.set svc.lastInteraction userId now })

def getCurrentState (svc : CSService) (userId : String) (now : Nat) :
    Except String (ConvState × CSService) :=
  match JsMap.get svc.conversations userId with
  | some s => .ok (s, svc)
  | none =>
    if svc.conversations.length ≥ maxConcurrentConversations then
      .error "Maximum concurrent conversations limit reached"
    else
      .ok (initConversation svc userId now)

/-- A partial-data object passed to `updateState`: `some v` is a key present
in the JavaScript object literal, `none` a key that is absent. -/
structure ConvPatch where
  name : Option String := none
  location : Option String := none
  symptoms : Option (List String) := none
  hasBeenGreeted : Option Bool := none
  leadProcessed : Option Bool := none
  objectionType : Option (Option String) := none
  hasShownResistance : Option Bool := none

/-- The object spread `{...currentState.data, ...additionalData, lastUpdate: new Date()}`. -/
def mergeData (d : ConvData) (p : ConvPatch) (now : Nat) : ConvData :=
  { name := match p.name with | some v => some v | none => d.name,
    location := match p.location with | some v => some v | none => d.location,
    symptoms := p.symptoms.getD d.symptoms,
    lastUpdate := now,
    hasBeenGreeted := p.hasBeenGreeted.getD d.hasBeenGreeted,
    leadProcessed := p.leadProcessed.getD d.leadProcessed,
    objectionType := p.objectionType.getD d.objectionType,
    hasShownResistance := p.hasShownResistance.getD d.hasShownResistance,
    lastAppointment := d.lastAppointment }

def updateState (svc : CSService) (userId : String) (newState : ConvTag)
    (additionalData : ConvPatch) (now : Nat) : Except String (ConvState × CSService) := do
  let (currentState, svc1) ← getCurrentState svc userId now
  let updatedState : ConvState :=
    { state := newState, data := mergeData currentState.data additionalData now }
  -- `validateState` checks membership in the CONVERSATION_STATES enumeration,
  -- guaranteed here by the `ConvTag` type
  .ok (updatedState,
       { conversations := JsMap.set svc1.conversations userId updatedState,
         lastInteraction := JsMap.set svc1.lastInteraction userId now })

/-- `toDateString()` agreement of `t1 - 5h` and `t2 - 5h` on a UTC host. -/
def sameUTCminus5Day (t1 t2 : Nat) : Bool :=
  (t1 - 18000000) / 86400000 == (t2 - 18000000) / 86400000

def isFirstTimeUser (svc : CSService) (userId : String) : Bool :=
  !(JsMap.hasKey svc.conversations userId)

def isLeadProcessedToday (svc : CSService) (userId : String) (now : Nat) :
    Except String (Bool × CSService) := do
  let (state, svc1) ← getCurrentState svc userId now
  if !state.data.leadProcessed then
    pure (false, svc1)
  else
    pure (sameUTCminus5Day state.data.lastUpdate now, svc1)

def markLeadAsProcessed (svc : CSService) (userId : String) (now : Nat) :
    Except String CSService := do
  let (currentState, svc1) ← getCurrentState svc userId now
  let (_, svc2) ← updateState svc1 userId currentState.state { leadProcessed := some true } now
  pure svc2

def hasEverBeenGreeted (svc : CSService) (userId : String) (now : Nat) :
    Except String (Bool × CSService) := do
  let (state, svc1) ← getCurrentState svc userId now
  pure (state.data.hasBeenGreeted, svc1)

def markAsGreeted (svc : CSService) (userId : String) (now : Nat) :
    Except String CSService := do
  let (currentState, svc1) ← getCurrentState svc userId now
  let (_, svc2) ← updateState svc1 userId currentState.state { hasBeenGreeted := some true } now
  pure svc2

end ConversationStateService

/-! ### UserTrackingService — workbook and `trackUser`

`UserTrackingService.js` lines 307–398.  The Excel workbook is three typed
sheets; dates and times are the strings produced by `formatPeruDate` /
`formatPeruTime` / `toISOString` and are passed in pre-formatted
(`todayDate`, `timeStr`, `isoNow`).  `eachRow` assigns `existingRow` on
every match, so the row that is mutated is the *last* matching row. -/

namespace UserTrackingService

/-- JavaScript truthiness of an optional string (`null`, `undefined`, `''` falsy). -/
def optTruthy : Option String → Bool
  | none => false
  | some s => !(s == "")

/-- JavaScript `o || dflt` for optional strings. -/
def jsOr (o : Option String) (dflt : String) : String :=
  match o with
  | some s => if s == "" then dflt else s
  | none => dflt

structure UserData where
  phone : String
  name : Option String
  location : Option String
  symptoms : List String
  source : Option String
  campaignId : Option String
deriving DecidableEq

structure UserRow where
  date : String
  time : String
  phone : String
  name : String
  adId : Option String
  campaign : Option String
  firstContact : String
  lastContact : String
  interactions : Nat
  lastIntent : String
deriving DecidableEq

structure LeadRow where
  date : String
  time : String
  phone : String
  name : String
  location : String
  symptoms : String
  source : String
  campaignId : String
deriving DecidableEq

/-- A row of the `Objeciones` sheet (created on demand by `trackObjection`).
`objectionType` is the raw `userData.objection_type` cell, which may be
absent. -/
structure ObjectionRow where
  date : String
  time : String
  phone : String
  name : String
  objectionType : Option String
  originalMessage : String
  status : String
deriving DecidableEq

/-- A row of the `Consultas Gratuitas` sheet (created on demand by
`trackFreeConsultation`). -/
structure OfferRow where
  offerDate : String
  offerTime : String
  phone : String
  name : String
  reason : String
  accepted : String
  appointmentDate : String
  location : String
  status : String
deriving DecidableEq

structure Workbook where
  organicUsers : List UserRow
  pauta : List UserRow
  leads : List LeadRow
  objections : List ObjectionRow
  freeConsultations : List OfferRow
deriving DecidableEq

def updateFirst (p : α → Bool) (f : α → α) : List α → List α
  | [] => []
  | r :: rs => if p r then f r :: rs else r :: updateFirst p f rs

/-- Mutate the last row satisfying `p`, as the `eachRow`-then-assign idiom does. -/
def updateLast (p : α → Bool) (f : α → α) (rows : List α) : List α :=
  (updateFirst p f rows.reverse).reverse

/-- The `existingLead` scan of the `Leads` sheet: some row already carries
this phone number and this formatted date. -/
def leadExists (leads : List LeadRow) (phone date : String) : Bool :=
  leads.any (fun row => row.date == date && row.phone == phone)

def leadCount (leads : List LeadRow) (phone date : String) : Nat :=
  leads.countP (fun row => row.date == date && row.phone == phone)

/-- The row appended to the `Leads` sheet by a qualifying `trackUser` call. -/
def mkLeadRow (userData : UserData) (todayDate timeStr : String) (isFromAd : Bool) :
    LeadRow :=
  { date := todayDate, time := timeStr, phone := userData.phone,
    name := jsOr userData.name "No proporcionado",
    location := jsOr userData.location "No proporcionada",
    symptoms := String.intercalate ", " userData.symptoms,
    source := if isFromAd then "Facebook Ads" else "Orgánico",
    campaignId := jsOr userData.campaignId "N/A" }

def trackUser (wb : Workbook) (userData : UserData)
    (todayDate timeStr isoNow : String) : Workbook :=
  let isFromAd := optTruthy userData.campaignId && !(userData.campaignId == some "N/A")
  -- 1. update the source sheet (Pauta when from an ad, Organic Users otherwise)
  let sourceRows := if isFromAd then wb.pauta else wb.organicUsers
  let updatedSource :=
    if sourceRows.any (fun row => row.phone == userData.phone) then
      updateLast (fun row => row.phone == userData.phone)
        (fun row =>
          { row with
            lastContact := isoNow,
            interactions := row.interactions + 1,
            lastIntent := jsOr userData.symptoms.head? "No registrado",
            name := if optTruthy userData.name then (userData.name).getD row.name
                    else row.name })
        sourceRows
    else
      sourceRows ++
        [{ date := todayDate, time := timeStr, phone := userData.phone,
           name := jsOr userData.name "No proporcionado",
           adId := if isFromAd then userData.campaignId else none,
           campaign := if isFromAd then some (jsOr userData.source "Facebook") else none,
           firstContact := isoNow, lastContact := isoNow,
           interactions := 1,
           lastIntent := jsOr userData.symptoms.head? "No registrado" }]
  -- 2. update the Leads sheet when there are symptoms or a location
  let leads :=
    if decide (userData.symptoms.length > 0) || optTruthy userData.location then
      if !(leadExists wb.leads userData.phone todayDate) then
        wb.leads ++ [mkLeadRow userData todayDate timeStr isFromAd]
      else wb.leads
    else wb.leads
  { organicUsers := if isFromAd then wb.organicUsers else updatedSource,
    pauta := if isFromAd then updatedSource else wb.pauta,
    leads := leads,
    objections := wb.objections,
    freeConsultations := wb.freeConsultations }

/-- `trackObjection` (lines 400–448): unconditional append, status `'activa'`. -/
def trackObjection (wb : Workbook) (phone name : String)
    (objectionType : Option String) (originalMessage : String)
    (todayDate timeStr : String) : Workbook :=
  { wb with objections := wb.objections ++
      [{ date := todayDate, time := timeStr, phone := phone, name := name,
         objectionType := objectionType, originalMessage := originalMessage,
         status := "activa" }] }

/-- `trackFreeConsultation` (lines 450–502): unconditional append. -/
def trackFreeConsultation (wb : Workbook) (phone name : String)
    (reason : Option String) (todayDate timeStr : String) : Workbook :=
  { wb with freeConsultations := wb.freeConsultations ++
      [{ offerDate := todayDate, offerTime := timeStr, phone := phone, name := name,
         reason := jsOr reason "No especificado", accepted := "pendiente",
         appointmentDate := "", location := "", status := "oferta_realizada" }] }

end UserTrackingService

/-! ### WhatsAppService — `handleIncomingMessage`

`whatsappService.js` lines 113–187.  There is no message buffer: the
constructor declares `MESSAGE_BUFFER_TIMEOUT` ("15 segundos de espera para
agrupar mensajes") and `messageQueue`, but no method reads either, and
`startQueueProcessor` is an empty stub whose comment claims "ahora usamos
el sistema de buffer".  Every `message` event calls this method directly
(`index.js`, `client.on('message', ...)`).

The method: returns early when `processingLock` already holds the chat id
(the inbound message is ignored); otherwise resets `activeChats` on a new
Perú day, stamps `chatLastInteraction`, sets the lock, runs the inner
`messageHandler.handleIncomingMessage`, sends the response if any, and in
all cases the `finally` block deletes the lock entry — including on the
early busy-return, which therefore also clears the lock held by the
in-flight turn.  The two `setTimeout` cleanups only delete entries later
and are not modelled.

`inner` is the outcome of the inner handler (`.error` = it threw);
`downstreamTexts` records the bodies handed to the inner handler. -/

namespace WhatsAppService

structure WSMessage where
  fromId : String
  body : String
deriving DecidableEq

structure WSState where
  processingLock : String → Bool
  chatLastInteraction : String → Option Nat
  activeChats : String → Option Nat

structure WSResult where
  state : WSState
  downstreamTexts : List String
  sent : List (String × String)
  ignoredBusy : Bool

def MESSAGE_BUFFER_TIMEOUT : Nat := 15000
def PROCESSING_TIMEOUT : Nat := 30000
def CHAT_TIMEOUT : Nat := 300000

def errorMessage : String :=
  "Lo siento, hubo un error al procesar tu mensaje. Por favor, intenta nuevamente en unos momentos."

/-- Epoch day of `getPeruStartOfDay` (America/Lima, UTC-5) on a UTC host. -/
def peruEpochDay (t : Nat) : Nat := (t - 18000000) / 86400000

def handleIncomingMessage (st : WSState) (message : WSMessage) (now : Nat)
    (inner : Except Unit (Option String)) : WSResult :=
  let chatId := message.fromId
  if st.processingLock chatId then
    -- "Chat ... está siendo procesado, ignorando nuevo mensaje"; the early
    -- return sits inside the `try`, so `finally` still deletes the entry
    { state := { st with
        processingLock := fun c => if c == chatId then false else st.processingLock c },
      downstreamTexts := [], sent := [], ignoredBusy := true }
  else
    let isNewDay :=
      match st.chatLastInteraction chatId with
      | none => true
      | some last => peruEpochDay last < peruEpochDay now
    let st1 :=
      if isNewDay then
        { st with activeChats := fun c => if c == chatId then none else st.activeChats c }
      else st
    let st2 := { st1 with
      chatLastInteraction := fun c => if c == chatId then some now else st1.chatLastInteraction c }
    let st3 := { st2 with
      processingLock := fun c => if c == chatId then true else st2.processingLock c }
    match inner with
    | .ok response =>
      let sent := match response with
        | some r => [(chatId, r)]
        | none => []
      let st4 := { st3 with
        activeChats := fun c => if c == chatId then some now else st3.activeChats c }
      { state := { st4 with
          processingLock := fun c => if c == chatId then false else st4.processingLock c },
        downstreamTexts := [message.body], sent := sent, ignoredBusy := false }
    | .error _ =>
      -- catch → handleError sends the apology; finally deletes the lock
      { state := { st3 with
          processingLock := fun c => if c == chatId then false else st3.processingLock c },
        downstreamTexts := [message.body], sent := [(chatId, errorMessage)],
        ignoredBusy := false }

end WhatsAppService

namespace JsMap

/-- `Map.delete` (keys are unique, so deleting the first occurrence suffices). -/
def del : List (String × α) → String → List (String × α)
  | [], _ => []
  | p :: rest, k => if p.1 == k then rest else p :: del rest k

end JsMap

namespace ConversationStateService

/-- `resetState` (the `/reset` command): drop the counterpart from both maps. -/
def resetState (svc : CSService) (userId : String) : CSService :=
  { conversations := JsMap.del svc.conversations userId,
    lastInteraction := JsMap.del svc.lastInteraction userId }

end ConversationStateService

/-! ### MessageHandler — `handleIncomingMessage`

`messageHandler.js` lines 157–292, with its helpers (`extractUserData`
lines 356–440, `updateConversationState` 442–466, `shouldProcessLead`
468–476, `processLead` 478–500, `handleCommand` 546–599).

External effects appear as an oracle: `replyText` is what
`openaiService.generateResponse` returned for the conversational reply
(`none` = `undefined`), `parsedExtract` is the result of `JSON.parse` on
the extraction response (`none` = the provider call or the parse failed,
degrading to "no new data"), `contactPushname` / `contactName` come from
`message.getContact()`, and `imageOk` tells whether download, validation
and the Cloudinary upload of an attached image all succeeded.  Workbook
write failures are swallowed by the surrounding `try`/`catch` blocks and
leave the control flow unchanged, so the store is modelled as succeeding;
`getStats`, file cleanup and persistence timers touch no sheet row. -/

namespace MessageHandler

open ConversationStateService UserTrackingService

structure MHMessage where
  fromId : String
  fromMe : Bool
  body : Option String
  hasMedia : Bool
  msgType : String
  notifyName : Option String
  pushname : Option String
  adId : Option String
deriving DecidableEq

structure MHState where
  conv : CSService
  wb : Workbook
  inited : Bool
deriving DecidableEq

structure ExtractedData where
  name : Option String
  location : Option String
  symptoms : List String
  objectionType : Option String
  objectionDetected : Bool
  freeConsultationResponse : Option String
  hasNewData : Bool
deriving DecidableEq

structure MHOracle where
  replyText : Option String
  parsedExtract : Option ExtractedData
  contactPushname : Option String
  contactName : Option String
  imageOk : Bool
deriving DecidableEq

structure MHResult where
  response : Option String
  st : MHState
  sent : List (String × String)
deriving DecidableEq

/-- JavaScript `a || b` on optional strings (`''` is falsy). -/
def jsOrOpt (a b : Option String) : Option String :=
  if optTruthy a then a else b

/-- The merge performed at the end of `extractUserData`; on a parse failure
(or a provider exception) the `catch` branches fall back to the current
state's data with `hasNewData: false`. -/
def extractUserData (parsed : Option ExtractedData) (currentData : ConvData) :
    ExtractedData :=
  match parsed with
  | some extracted =>
    { name := jsOrOpt extracted.name (jsOrOpt currentData.name none),
      location := jsOrOpt extracted.location (jsOrOpt currentData.location none),
      symptoms := currentData.symptoms ++ extracted.symptoms,
      objectionType := jsOrOpt extracted.objectionType none,
      objectionDetected := extracted.objectionDetected,
      freeConsultationResponse := jsOrOpt extracted.freeConsultationResponse none,
      hasNewData := extracted.hasNewData || extracted.objectionDetected }
  | none =>
    { name := jsOrOpt currentData.name none,
      location := jsOrOpt currentData.location none,
      symptoms := currentData.symptoms,
      objectionType := none,
      objectionDetected := false,
      freeConsultationResponse := none,
      hasNewData := false }

/-- `updateConversationState`: build `updateData` from the truthy fields and,
when any key is present, transition to `COLLECTING_INFO`. -/
def updateConversationState (svc : CSService) (userId : String)
    (extractedData : ExtractedData) (now : Nat) : Except String CSService :=
  let p0 : ConvPatch := {}
  let p1 := if optTruthy extractedData.name then { p0 with name := extractedData.name } else p0
  let p2 := if optTruthy extractedData.location then { p1 with location := extractedData.location } else p1
  let p3 := if decide (extractedData.symptoms.length > 0) then { p2 with symptoms := some extractedData.symptoms } else p2
  let p4 := if extractedData.objectionDetected then
      { p3 with objectionType := some extractedData.objectionType, hasShownResistance := some true }
    else p3
  if optTruthy extractedData.name || optTruthy extractedData.location ||
      decide (extractedData.symptoms.length > 0) || extractedData.objectionDetected then
    (updateState svc userId .COLLECTING_INFO p4 now).map (fun r => r.2)
  else
    .ok svc

/-- `shouldProcessLead`: relevant data present and no lead recorded today. -/
def shouldProcessLead (svc : CSService) (extractedData : ExtractedData)
    (userId : String) (now : Nat) : Except String (Bool × CSService) := do
  let hasRelevantData :=
    decide (extractedData.symptoms.length > 0) || optTruthy extractedData.location
  let (processed, svc1) ← isLeadProcessedToday svc userId now
  pure (hasRelevantData && !processed, svc1)

def helpText : String :=
  "🤖 *Bot de WhatsApp con GPT-4*\n\nComandos disponibles:\n• /help - Mostrar esta ayuda\n• /ping - Verificar que el bot está funcionando\n• /info - Información del bot\n• /reset - Reiniciar conversación\n\nSimplemente escríbeme cualquier mensaje y te responderé usando inteligencia artificial. 😊"

def infoText : String :=
  "ℹ️ *Información del Bot*\n\n• Bot de WhatsApp integrado con GPT-4\n• Powered by whatsapp-web.js\n• Versión: 2.0.0\n• Estado: ✅ Activo"

/-- The single message each `handleCommand` branch sends; the function
itself returns `undefined`. -/
def commandReply (command : String) : String :=
  let c := command.toLower
  if c == "/help" || c == "/ayuda" then helpText
  else if c == "/ping" then "🏓 Pong! El bot está funcionando correctamente."
  else if c == "/info" then infoText
  else if c == "/reset" then "🔄 Conversación reiniciada. ¡Hola de nuevo!"
  else "❓ Comando no reconocido. Usa /help para ver los comandos disponibles."

def apologyProcessing : String :=
  "Lo siento, hubo un error procesando tu mensaje. ¿Podrías intentar escribirlo de otra manera?"

def apologyImage : String :=
  "Lo siento, hubo un problema procesando tu imagen. Por favor, asegúrate que sea menor a 5MB y en formato JPG, PNG o GIF."

/-- `message.from.replace('@c.us', '')`. -/
def stripAtCUs (s : String) : String := s.replace "@c.us" ""

def handleIncomingMessage (st0 : MHState) (message : MHMessage) (now : Nat)
    (todayDate timeStr isoNow : String) (oracle : MHOracle) : MHResult :=
  -- `await this.ensureInitialized()`
  let st := { st0 with inited := true }
  -- `if (message.fromMe) return null`
  if message.fromMe then
    { response := none, st := st, sent := [] }
  else
    let userId := message.fromId
    let bodyIsCommand :=
      match message.body with
      | some b => !(b == "") && b.startsWith "/"
      | none => false
    if bodyIsCommand then
      let b := (message.body).getD ""
      let conv1 := if b.toLower == "/reset" then resetState st.conv userId else st.conv
      { response := none, st := { st with conv := conv1 },
        sent := [(userId, commandReply b)] }
    else if message.hasMedia && message.msgType == "image" && !oracle.imageOk then
      { response := some apologyImage, st := st, sent := [] }
    else
      let isFirstTime := isFirstTimeUser st.conv userId
      -- `hasEverBeenGreeted` reads the state, creating it lazily (and can
      -- throw the capacity error, handled by the processing catch)
      match hasEverBeenGreeted st.conv userId now with
      | .error _ => { response := some apologyProcessing, st := st, sent := [] }
      | .ok (_, conv1) =>
        -- first-time users are written to the workbook immediately
        -- (tracking failures are swallowed)
        let wb1 :=
          if isFirstTime then
            trackUser st.wb
              { phone := stripAtCUs message.fromId,
                name := some (jsOr (jsOrOpt message.notifyName message.pushname) "No proporcionado"),
                location := some "No proporcionada",
                symptoms := [],
                source := some "WhatsApp",
                campaignId := some (jsOr message.adId "N/A") }
              todayDate timeStr isoNow
          else st.wb
        -- `buildConversationContext` reads the current state again
        match getCurrentState conv1 userId now with
        | .error _ =>
          { response := some apologyProcessing,
            st := { st with conv := conv1, wb := wb1 }, sent := [] }
        | .ok (_, conv2) =>
          -- `generateIntelligentResponse` then `if (!response) throw`
          if !(optTruthy oracle.replyText) then
            { response := some apologyProcessing,
              st := { st with conv := conv2, wb := wb1 }, sent := [] }
          else
            let response := (oracle.replyText).getD ""
            -- `extractUserData` reads the current state and merges
            match getCurrentState conv2 userId now with
            | .error _ =>
              { response := some apologyProcessing,
                st := { st with conv := conv2, wb := wb1 }, sent := [] }
            | .ok (curState, conv3) =>
              let extractedData := extractUserData oracle.parsedExtract curState.data
              let conv4result :=
                if extractedData.hasNewData then
                  updateConversationState conv3 userId extractedData now
                else .ok conv3
              match conv4result with
              | .error _ =>
                { response := some apologyProcessing,
                  st := { st with conv := conv3, wb := wb1 }, sent := [] }
              | .ok conv4 =>
                let contactDisplayName :=
                  jsOr (jsOrOpt extractedData.name
                         (jsOrOpt oracle.contactPushname oracle.contactName))
                    "No proporcionado"
                let wb2 :=
                  if extractedData.objectionDetected then
                    trackFreeConsultation
                      (trackObjection wb1 (stripAtCUs message.fromId) contactDisplayName
                        extractedData.objectionType ((message.body).getD "")
                        todayDate timeStr)
                      (stripAtCUs message.fromId) contactDisplayName
                      extractedData.objectionType todayDate timeStr
                  else wb1
                match shouldProcessLead conv4 extractedData userId now with
                | .error _ =>
                  { response := some apologyProcessing,
                    st := { st with conv := conv4, wb := wb2 }, sent := [] }
                | .ok (should, conv5) =>
                  let wb3 :=
                    if should then
                      trackUser wb2
                        { phone := stripAtCUs message.fromId,
                          name := some contactDisplayName,
                          location := some (jsOr extractedData.location "No proporcionada"),
                          symptoms := extractedData.symptoms,
                          source := some "WhatsApp",
                          campaignId := some (jsOr message.adId "N/A") }
                        todayDate timeStr isoNow
                    else wb2
                  -- `markLeadAsProcessed` runs inside the same swallowed catch
                  let conv6 :=
                    if should then
                      match markLeadAsProcessed conv5 userId now with
                      | .ok c => c
                      | .error _ => conv5
                    else conv5
                  -- `markAsGreeted` is not individually wrapped
                  match (if isFirstTime then markAsGreeted conv6 userId now else .ok conv6) with
                  | .error _ =>
                    { response := some apologyProcessing,
                      st := { st with conv := conv6, wb := wb3 }, sent := [] }
                  | .ok conv7 =>
                    { response := some response,
                      st := { st with conv := conv7, wb := wb3 }, sent := [] }

end MessageHandler

/-! ### Concrete fixtures

Closed inputs used by the counterexamples and witnesses below. -/

/-- An empty `WhatsAppService` state: no lock, no interaction history. -/
def wsEmpty : WhatsAppService.WSState :=
  { processingLock := fun _ => false,
    chatLastInteraction := fun _ => none,
    activeChats := fun _ => none }

/-- A state in which the counterpart's chat is currently being processed. -/
def wsLocked : WhatsAppService.WSState :=
  { wsEmpty with processingLock := fun c => c == "51999888777@c.us" }

def wsM1 : WhatsAppService.WSMessage := { fromId := "51999888777@c.us", body := "Hola" }

def wsM2 : WhatsAppService.WSMessage :=
  { fromId := "51999888777@c.us", body := "me duele la cabeza" }

/-- A `Leads` sheet already holding a row for phone `51999888777` on
`05/10/2025`, recorded with the name `Ana`. -/
def wbAna : UserTrackingService.Workbook :=
  { organicUsers := [], pauta := [],
    leads := [{ date := "05/10/2025", time := "09:00", phone := "51999888777",
                name := "Ana", location := "Lima", symptoms := "fiebre",
                source := "Orgánico", campaignId := "N/A" }],
    objections := [], freeConsultations := [] }

/-- A later qualifying call the same day, carrying a different name,
location and symptom list. -/
def udBerta : UserTrackingService.UserData :=
  { phone := "51999888777", name := some "Berta", location := some "Miraflores",
    symptoms := ["tos"], source := some "WhatsApp", campaignId := some "N/A" }

def convInitialAt (t : Nat) : ConversationStateService.ConvState :=
  { state := .INITIAL,
    data := { name := none, location := none, symptoms := [],
              lastUpdate := t, hasBeenGreeted := false, leadProcessed := false } }

/-- A service tracking exactly one counterpart `"u"`. -/
def csOne : ConversationStateService.CSService :=
  { conversations := [("u", convInitialAt 17000000)],
    lastInteraction := [("u", 17000000)] }

/-- The service `csOne` after `markLeadAsProcessed("u")` at `t = 18000000`. -/
def csOneMarked : ConversationStateService.CSService :=
  { conversations :=
      [("u", { state := .INITIAL,
               data := { name := none, location := none, symptoms := [],
                         lastUpdate := 18000000, hasBeenGreeted := false,
                         leadProcessed := true } })],
    lastInteraction := [("u", 18000000)] }

/-- An empty conversation service. -/
def csEmpty : ConversationStateService.CSService :=
  { conversations := [], lastInteraction := [] }

/-- A service already tracking 100 counterparts, none of them `"u"`. -/
def csFull : ConversationStateService.CSService :=
  { conversations := (List.range 100).map (fun i => (toString i, convInitialAt 0)),
    lastInteraction := [] }

def wbEmpty : UserTrackingService.Workbook :=
  { organicUsers := [], pauta := [], leads := [], objections := [],
    freeConsultations := [] }

def mhStW : MessageHandler.MHState :=
  { conv := csOne, wb := wbAna, inited := false }

/-- A message sent by the bot itself (`fromMe: true`). -/
def mhMsgOwn : MessageHandler.MHMessage :=
  { fromId := "51999888777@c.us", fromMe := true, body := some "hola",
    hasMedia := false, msgType := "chat", notifyName := none, pushname := none,
    adId := none }

def mhOrW : MessageHandler.MHOracle :=
  { replyText := some "respuesta", parsedExtract := none, contactPushname := none,
    contactName := none, imageOk := true }

/-! ### Theorems -/

namespace JsMap

theorem get_set_self (m : List (String × α)) (k : String) (v : α) :
    get (set m k v) k = some v := by
  induction m with
  | nil => simp [set, get]
  | cons p rest ih =>
    by_cases h : p.1 = k
    · simp [set, get, h]
    · simp [set, get, h, ih]

theorem get_set_ne (m : List (String × α)) (k k' : String) (v : α) (h : k' ≠ k) :
    get (set m k v) k' = get m k' := by
  induction m with
  | nil => simp [set, get, Ne.symm h]
  | cons p rest ih =>
    by_cases hp : p.1 = k
    · subst hp
      simp [set, get, Ne.symm h]
    · simp [set, get, hp, ih]

end JsMap

namespace WhatsAppService

theorem handleConnectionErrorGo_delays (outcomes : Nat → Bool) :
    ∀ b a, (handleConnectionErrorGo outcomes a b).1 =
      (List.range (handleConnectionErrorGo outcomes a b).1.length).map
        (fun i => RECONNECT_DELAY * 2 ^ (a + i)) := by
  intro b
  induction b with
  | zero => intro a; simp [handleConnectionErrorGo]
  | succ b ih =>
    intro a
    by_cases h : outcomes a
    · simp [handleConnectionErrorGo, h, List.range_succ]
    · simp only [handleConnectionErrorGo, h, if_false, Bool.false_eq_true,
        List.length_cons]
      have heq : (fun i => RECONNECT_DELAY * 2 ^ (a + i)) ∘ Nat.succ
          = fun i => RECONNECT_DELAY * 2 ^ ((a + 1) + i) := by
        funext i
        show RECONNECT_DELAY * 2 ^ (a + Nat.succ i) =
          RECONNECT_DELAY * 2 ^ ((a + 1) + i)
        have h2 : a + Nat.succ i = (a + 1) + i := by omega
        rw [h2]
      rw [List.range_succ_eq_map, List.map_cons, List.map_map, heq, ← ih (a + 1)]
      simp

theorem handleConnectionErrorGo_length_le (outcomes : Nat → Bool) :
    ∀ b a, (handleConnectionErrorGo outcomes a b).1.length ≤ b := by
  intro b
  induction b with
  | zero => intro a; simp [handleConnectionErrorGo]
  | succ b ih =>
    intro a
    by_cases h : outcomes a
    · simp [handleConnectionErrorGo, h]
    · simp only [handleConnectionErrorGo, h, if_false, Bool.false_eq_true]
      have := ih (a + 1)
      simp only [List.length_cons]
      omega

theorem handleConnectionErrorGo_allFail (outcomes : Nat → Bool)
    (hf : ∀ n, outcomes n = false) :
    ∀ b a, (handleConnectionErrorGo outcomes a b).1.length = b ∧
      (handleConnectionErrorGo outcomes a b).2 = a + b := by
  intro b
  induction b with
  | zero => intro a; simp [handleConnectionErrorGo]
  | succ b ih =>
    intro a
    have h := hf a
    obtain ⟨ih1, ih2⟩ := ih (a + 1)
    simp only [handleConnectionErrorGo, h, if_false, Bool.false_eq_true,
      List.length_cons]
    constructor
    · omega
    · omega

end WhatsAppService

/-- C7: in a cascade of consecutive connection failures, the scheduled
reconnection delays form the geometric sequence
`RECONNECT_DELAY * 2 ^ (n-1)` (n 1-based, i.e. index `i` 0-based below); at
most `MAX_RECONNECT_ATTEMPTS` attempts are scheduled; when every attempt
fails, exactly `MAX_RECONNECT_ATTEMPTS` are scheduled, the counter ends at
the cap and a further error schedules nothing; a successful attempt resets
`reconnectAttempts` to zero. -/
theorem handleConnectionError_backoff (outcomes : Nat → Bool) (a : Nat) :
    ((WhatsAppService.handleConnectionError outcomes 0).1 =
      (List.range (WhatsAppService.handleConnectionError outcomes 0).1.length).map
        (fun i => WhatsAppService.RECONNECT_DELAY * 2 ^ i))
    ∧ (WhatsAppService.handleConnectionError outcomes 0).1.length ≤
        WhatsAppService.MAX_RECONNECT_ATTEMPTS
    ∧ ((∀ n, outcomes n = false) →
        (WhatsAppService.handleConnectionError outcomes 0).1.length =
            WhatsAppService.MAX_RECONNECT_ATTEMPTS ∧
          (WhatsAppService.handleConnectionError outcomes 0).2 =
            WhatsAppService.MAX_RECONNECT_ATTEMPTS ∧
          (WhatsAppService.handleConnectionError outcomes
            WhatsAppService.MAX_RECONNECT_ATTEMPTS).1 = [])
    ∧ (a < WhatsAppService.MAX_RECONNECT_ATTEMPTS → outcomes a = true →
        WhatsAppService.handleConnectionError outcomes a =
          ([WhatsAppService.RECONNECT_DELAY * 2 ^ a], 0)) := by
  refine ⟨?_, ?_, ?_, ?_⟩
  · have h := WhatsAppService.handleConnectionErrorGo_delays outcomes
      WhatsAppService.MAX_RECONNECT_ATTEMPTS 0
    simpa [WhatsAppService.handleConnectionError] using h
  · have h := WhatsAppService.handleConnectionErrorGo_length_le outcomes
      WhatsAppService.MAX_RECONNECT_ATTEMPTS 0
    simpa [WhatsAppService.handleConnectionError] using h
  · intro hf
    have h := WhatsAppService.handleConnectionErrorGo_allFail outcomes hf
      WhatsAppService.MAX_RECONNECT_ATTEMPTS 0
    refine ⟨?_, ?_, ?_⟩
    · simpa [WhatsAppService.handleConnectionError] using h.1
    · simpa [WhatsAppService.handleConnectionError] using h.2
    · have hz : WhatsAppService.MAX_RECONNECT_ATTEMPTS -
          WhatsAppService.MAX_RECONNECT_ATTEMPTS = 0 := by omega
      simp [WhatsAppService.handleConnectionError, hz,
        WhatsAppService.handleConnectionErrorGo]
  · intro ha hs
    obtain ⟨n, hn⟩ : ∃ n, WhatsAppService.MAX_RECONNECT_ATTEMPTS - a = n + 1 :=
      ⟨WhatsAppService.MAX_RECONNECT_ATTEMPTS - a - 1, by omega⟩
    rw [WhatsAppService.handleConnectionError, hn]
    simp [WhatsAppService.handleConnectionErrorGo, hs]

/-- Witness for C7: all five delays with every attempt failing, no sixth
attempt, and a success while the counter is 2 resets it to zero after one
scheduled attempt of delay 20000 ms. -/
theorem handleConnectionError_backoff_witness :
    ((WhatsAppService.handleConnectionError (fun _ => false) 0).1 =
      (List.range (WhatsAppService.handleConnectionError (fun _ => false) 0).1.length).map
        (fun i => WhatsAppService.RECONNECT_DELAY * 2 ^ i))
    ∧ (WhatsAppService.handleConnectionError (fun _ => false) 0).1.length =
        WhatsAppService.MAX_RECONNECT_ATTEMPTS
    ∧ (WhatsAppService.handleConnectionError (fun _ => false)
        WhatsAppService.MAX_RECONNECT_ATTEMPTS).1 = []
    ∧ WhatsAppService.handleConnectionError (fun n => n == 2) 2 =
        ([WhatsAppService.RECONNECT_DELAY * 2 ^ 2], 0) := by
  have h1 := handleConnectionError_backoff (fun _ => false) 0
  have h2 := (handleConnectionError_backoff (fun n => n == 2) 2).2.2.2
    (by decide) (by decide)
  exact ⟨h1.1, (h1.2.2.1 (fun _ => rfl)).1, (h1.2.2.1 (fun _ => rfl)).2.2, h2⟩

/-- C3 (code bug): when the provider fails on every attempt with a
persistent rate-limit (HTTP 429) or server-error (HTTP 503)
classification, the `continue` statements skip the
`attempts === retryAttempts` fallback branch, the `while` guard then
fails, and `generateResponse` ends without returning — the caller receives
`undefined` (`none`), not the canned user-safe fallback string. -/
theorem generateResponse_persistent_failure_returns_undefined :
    OpenAIService.generateResponse
        (fun _ => .error { status := some 429, code := some "rate_limit_exceeded" }) =
      { result := none, attemptsMade := 3, totalDelayMs := 6000 }
    ∧ OpenAIService.generateResponse
        (fun _ => .error { status := some 503, code := none }) =
      { result := none, attemptsMade := 3, totalDelayMs := 3000 } := by
  decide

namespace OpenAIService

theorem generateResponseGo_allError (errs : Nat → OAIError) :
    ∀ b a, a + b = retryAttempts →
      (generateResponseGo (fun n => .error (errs n)) a b).attemptsMade = b := by
  intro b
  induction b with
  | zero => intro a h; rfl
  | succ b ih =>
    intro a h
    simp only [generateResponseGo]
    split_ifs with h1 h2 h3
    · rw [ih (a + 1) (by omega)]
    · rw [ih (a + 1) (by omega)]
    · have : a + 1 = retryAttempts := by
        simpa using h3
      have hb : b = 0 := by omega
      simp [hb]
    · rw [ih (a + 1) (by omega)]

end OpenAIService

namespace UserTrackingService

theorem tryOperationGo_first_nonretryable (results : Nat → Except TrackError α)
    (a b : Nat) (e : TrackError) (h1 : results a = .error e)
    (h2 : isRetryableTrack e = false) :
    tryOperationGo results a b = (.error e, 1) := by
  cases b <;> simp [tryOperationGo, h1, h2]

theorem tryOperationGo_allRetryable (errsT : Nat → TrackError)
    (h : ∀ n, isRetryableTrack (errsT n) = true) :
    ∀ b a, (tryOperationGo (fun n => (.error (errsT n) : Except TrackError α)) a b).2 =
      b + 1 := by
  intro b
  induction b with
  | zero =>
    intro a
    rw [tryOperationGo]
    simp [h a]
  | succ b ih =>
    intro a
    rw [tryOperationGo]
    simp only [h a, if_true]
    rw [ih (a + 1)]

end UserTrackingService

/-- C4 is false as stated: a first failure with a non-retryable
classification (here HTTP 400 / `invalid_api_key`, which is neither 429 nor
500/503) is retried all the same — the provider call makes 3 attempts, not
exactly one. -/
theorem generateResponse_nonretryable_three_attempts :
    (OpenAIService.generateResponse
        (fun _ => .error { status := some 400, code := some "invalid_api_key" })).attemptsMade = 3
    ∧ (OpenAIService.generateResponse
        (fun _ => .error { status := some 400, code := some "invalid_api_key" })).attemptsMade ≠ 1 := by
  decide

/-- C4 (amended): `generateResponse` makes exactly `retryAttempts = 3`
provider calls whenever every attempt fails, whatever the failure
classification (it only changes the inter-attempt delay and the final
fallback); `tryOperation` makes exactly one attempt when the first failure
is non-retryable, and exactly `retryAttempts + 1 = 6` attempts when every
attempt fails retryably. -/
theorem retry_attempt_counts
    (errs : Nat → OpenAIService.OAIError)
    (resultsT : Nat → Except UserTrackingService.TrackError Unit)
    (e : UserTrackingService.TrackError)
    (h1 : resultsT 0 = .error e)
    (h2 : UserTrackingService.isRetryableTrack e = false)
    (errsT : Nat → UserTrackingService.TrackError)
    (h3 : ∀ n, UserTrackingService.isRetryableTrack (errsT n) = true) :
    (OpenAIService.generateResponse (fun n => .error (errs n))).attemptsMade =
        OpenAIService.retryAttempts
    ∧ UserTrackingService.tryOperation resultsT = (.error e, 1)
    ∧ (UserTrackingService.tryOperation
        (fun n => (.error (errsT n) : Except UserTrackingService.TrackError Unit))).2 =
        UserTrackingService.retryAttempts + 1 :=
  ⟨OpenAIService.generateResponseGo_allError errs OpenAIService.retryAttempts 0 (by simp),
   UserTrackingService.tryOperationGo_first_nonretryable resultsT 0
     UserTrackingService.retryAttempts e h1 h2,
   UserTrackingService.tryOperationGo_allRetryable errsT h3
     UserTrackingService.retryAttempts 0⟩

/-- Witness for C4 (amended), at concrete failure streams: a persistent
`invalid_api_key` provider failure is attempted 3 times; a non-retryable
store failure once; a persistent `EBUSY` store failure 6 times. -/
theorem retry_attempt_counts_witness :
    (OpenAIService.generateResponse
        (fun _ => .error { status := some 401, code := some "invalid_api_key" })).attemptsMade =
        OpenAIService.retryAttempts
    ∧ UserTrackingService.tryOperation
        (fun _ => (.error { code := none, message := "permission denied" } :
          Except UserTrackingService.TrackError Unit)) =
        (.error { code := none, message := "permission denied" }, 1)
    ∧ (UserTrackingService.tryOperation
        (fun _ => (.error { code := some "EBUSY", message := "resource busy" } :
          Except UserTrackingService.TrackError Unit))).2 =
        UserTrackingService.retryAttempts + 1 := by
  have hEBUSY : UserTrackingService.isRetryableTrack
      { code := some "EBUSY", message := "resource busy" } = true := by decide
  exact retry_attempt_counts
    (fun _ => { status := some 401, code := some "invalid_api_key" })
    (fun _ => .error { code := none, message := "permission denied" })
    { code := none, message := "permission denied" }
    rfl (by decide)
    (fun _ => { code := some "EBUSY", message := "resource busy" })
    (fun _ => hEBUSY)

namespace UserTrackingService

theorem acquireLockGo_time_le (env : LockProbe) (startTime t n : Nat)
    (h : t ≤ startTime + maxWaitTime + 299) :
    (acquireLockGo env startTime t n).time ≤ startTime + maxWaitTime + 299 := by
  revert h
  induction t, n using acquireLockGo.induct env startTime with
  | case1 t n heq =>
    intro h
    rw [acquireLockGo.eq_def, heq]
    exact h
  | case2 t n lastLockTime heq hstale =>
    intro h
    rw [acquireLockGo.eq_def, heq]
    simp [hstale, AcquireResult.time]
    exact h
  | case3 t n lastLockTime heq hstale htime =>
    intro h
    rw [acquireLockGo.eq_def, heq]
    simp [hstale, htime, AcquireResult.time]
    exact h
  | case4 t n lastLockTime heq hstale htime ih =>
    intro h
    rw [acquireLockGo.eq_def, heq]
    simp [hstale, htime]
    have hj := (env.jitter n).2.2
    exact ih (by omega)

end UserTrackingService

/-- C5: every `acquireLock` call terminates — it either sets the lock entry
(`AcquireResult.acquired`, with `forcedRelease` marking the force-release of
a lock held past the max-hold time) or throws the lock-acquisition-timeout
error (`AcquireResult.lockTimeout`) — and it does so no later than
`maxWaitTime` (10 s) plus one poll interval (at most 299 ms) after
`startTime`, for every possible interleaving of lock observations and
jitter draws.  In particular a stale lock never blocks a waiter past this
bound. -/
theorem acquireLock_terminates_within_bound (env : UserTrackingService.LockProbe)
    (startTime : Nat) :
    (UserTrackingService.acquireLock env startTime).time ≤
      startTime + UserTrackingService.maxWaitTime + 299 :=
  UserTrackingService.acquireLockGo_time_le env startTime startTime 0 (by omega)

/-- C8: `getCurrentState` returns the existing record unchanged whenever
one exists, however many counterparts are tracked; otherwise it creates
and returns a fresh `INITIAL` record, unless the number of tracked
counterparts has reached `maxConcurrentConversations = 100`, in which case
it throws the capacity error. -/
theorem getCurrentState_contract (svc : ConversationStateService.CSService)
    (userId : String) (now : Nat) (s : ConversationStateService.ConvState) :
    (JsMap.get svc.conversations userId = some s →
      ConversationStateService.getCurrentState svc userId now = .ok (s, svc))
    ∧ (JsMap.get svc.conversations userId = none →
        svc.conversations.length < ConversationStateService.maxConcurrentConversations →
        ConversationStateService.getCurrentState svc userId now =
          .ok (ConversationStateService.initConversation svc userId now)
        ∧ (ConversationStateService.initConversation svc userId now).1 =
            { state := .INITIAL,
              data := { name := none, location := none, symptoms := [],
                        lastUpdate := now, hasBeenGreeted := false,
                        leadProcessed := false } }
        ∧ JsMap.get
            (ConversationStateService.initConversation svc userId now).2.conversations
            userId =
            some (ConversationStateService.initConversation svc userId now).1)
    ∧ (JsMap.get svc.conversations userId = none →
        svc.conversations.length ≥ ConversationStateService.maxConcurrentConversations →
        ConversationStateService.getCurrentState svc userId now =
          .error "Maximum concurrent conversations limit reached") := by
  refine ⟨?_, ?_, ?_⟩
  · intro h
    simp [ConversationStateService.getCurrentState, h]
  · intro h hlen
    refine ⟨?_, rfl, ?_⟩
    · simp [ConversationStateService.getCurrentState, h, Nat.not_le.mpr hlen]
    · simpa [ConversationStateService.initConversation] using
        JsMap.get_set_self svc.conversations userId _
  · intro h hlen
    simp [ConversationStateService.getCurrentState, h, hlen]

/-- Witness for C8: the existing record of a one-counterpart service is
returned as-is; an empty service creates the fresh `INITIAL` record; a
service tracking 100 counterparts throws the capacity error for a new
counterpart. -/
theorem getCurrentState_contract_witness :
    ConversationStateService.getCurrentState csOne "u" 18000000 =
      .ok (convInitialAt 17000000, csOne)
    ∧ ConversationStateService.getCurrentState csEmpty "u" 18000000 =
      .ok (ConversationStateService.initConversation csEmpty "u" 18000000)
    ∧ ConversationStateService.getCurrentState csFull "u" 18000000 =
      .error "Maximum concurrent conversations limit reached" := by
  refine ⟨?_, ?_, ?_⟩
  · exact (getCurrentState_contract csOne "u" 18000000 (convInitialAt 17000000)).1
      (by decide)
  · exact ((getCurrentState_contract csEmpty "u" 18000000 (convInitialAt 0)).2.1
      (by decide) (by decide)).1
  · exact (getCurrentState_contract csFull "u" 18000000 (convInitialAt 0)).2.2
      (by decide) (by decide)

namespace ConversationStateService

theorem isLeadProcessedToday_of_get (svc : CSService) (userId : String) (now : Nat)
    (s : ConvState) (h : JsMap.get svc.conversations userId = some s) :
    isLeadProcessedToday svc userId now =
      .ok (s.data.leadProcessed && sameUTCminus5Day s.data.lastUpdate now, svc) := by
  unfold isLeadProcessedToday getCurrentState
  rw [h]
  cases hl : s.data.leadProcessed <;>
    simp [hl, bind, Except.bind, pure, Except.pure]

theorem markLeadAsProcessed_shape (svc : CSService) (userId : String) (now : Nat)
    (svc' : CSService) (h : markLeadAsProcessed svc userId now = .ok svc') :
    ∃ u : ConvState, JsMap.get svc'.conversations userId = some u ∧
      u.data.leadProcessed = true ∧ u.data.lastUpdate = now := by
  unfold markLeadAsProcessed updateState getCurrentState at h
  cases hg : JsMap.get svc.conversations userId with
  | some s =>
    simp only [hg, bind, Except.bind, pure, Except.pure, Except.ok.injEq] at h
    refine ⟨{ state := s.state,
              data := mergeData s.data { leadProcessed := some true } now }, ?_, rfl, rfl⟩
    rw [← h]
    exact JsMap.get_set_self _ _ _
  | none =>
    by_cases hlen : svc.conversations.length ≥ maxConcurrentConversations
    · simp [hg, hlen, bind, Except.bind] at h
    · simp only [hg, hlen, if_false, if_true, initConversation,
        bind, Except.bind, pure, Except.pure, JsMap.get_set_self,
        Except.ok.injEq] at h
      refine ⟨{ state := ConvTag.INITIAL,
                data := mergeData
                  { name := none, location := none, symptoms := [],
                    lastUpdate := now, hasBeenGreeted := false,
                    leadProcessed := false }
                  { leadProcessed := some true } now }, ?_, rfl, rfl⟩
      rw [← h]
      exact JsMap.get_set_self _ _ _

end ConversationStateService

/-- C6: immediately after a successful `markLeadAsProcessed(userId)` at
time `t0`, `isLeadProcessedToday(userId)` returns `true` (and leaves the
service untouched); queried at any later instant `t1` on a different
Perú (UTC-5) calendar day, with no further mutation of the counterpart's
state in between, it returns `false`. -/
theorem isLeadProcessedToday_after_mark (svc svc' : ConversationStateService.CSService)
    (userId : String) (t0 t1 : Nat)
    (h : ConversationStateService.markLeadAsProcessed svc userId t0 = .ok svc') :
    ConversationStateService.isLeadProcessedToday svc' userId t0 = .ok (true, svc')
    ∧ (ConversationStateService.sameUTCminus5Day t0 t1 = false →
        ConversationStateService.isLeadProcessedToday svc' userId t1 = .ok (false, svc')) := by
  obtain ⟨u, hu, hlp, hlu⟩ :=
    ConversationStateService.markLeadAsProcessed_shape svc userId t0 svc' h
  constructor
  · rw [ConversationStateService.isLeadProcessedToday_of_get svc' userId t0 u hu, hlp, hlu]
    simp [ConversationStateService.sameUTCminus5Day]
  · intro hne
    rw [ConversationStateService.isLeadProcessedToday_of_get svc' userId t1 u hu, hlp,
      hlu, hne]
    simp

/-- Witness for C6: marking counterpart `"u"` at epoch-ms 18000000 (start
of Perú day 0) makes `isLeadProcessedToday` true at that instant and false
one calendar day later (104400000) with no intervening mutation. -/
theorem isLeadProcessedToday_after_mark_witness :
    ConversationStateService.markLeadAsProcessed csOne "u" 18000000 = .ok csOneMarked
    ∧ ConversationStateService.isLeadProcessedToday csOneMarked "u" 18000000 =
        .ok (true, csOneMarked)
    ∧ ConversationStateService.sameUTCminus5Day 18000000 104400000 = false
    ∧ ConversationStateService.isLeadProcessedToday csOneMarked "u" 104400000 =
        .ok (false, csOneMarked) := by
  have hmark : ConversationStateService.markLeadAsProcessed csOne "u" 18000000 =
      .ok csOneMarked := by rfl
  have h := isLeadProcessedToday_after_mark csOne csOneMarked "u" 18000000 104400000 hmark
  exact ⟨hmark, h.1, by decide, h.2 (by decide)⟩

namespace UserTrackingService

theorem trackUser_leads_eq (wb : Workbook) (u : UserData)
    (todayDate timeStr isoNow : String)
    (hq : (decide (u.symptoms.length > 0) || optTruthy u.location) = true) :
    (trackUser wb u todayDate timeStr isoNow).leads =
      if leadExists wb.leads u.phone todayDate then wb.leads
      else wb.leads ++ [mkLeadRow u todayDate timeStr
        (optTruthy u.campaignId && !(u.campaignId == some "N/A"))] := by
  unfold trackUser
  simp only [hq, if_true]
  cases hex : leadExists wb.leads u.phone todayDate <;> simp [hex]

end UserTrackingService

/-- C2 is false as stated: a qualifying same-day `trackUser` call for a
phone that already has a `Leads` row leaves the sheet completely unchanged
— the existing row is *not* updated in place (it still carries the old
name `Ana` although the call supplied `Berta`, `Miraflores` and a new
symptom). -/
theorem trackUser_existing_lead_not_updated :
    (UserTrackingService.trackUser wbAna udBerta "05/10/2025" "10:00"
        "2025-10-05T15:00:00.000Z").leads = wbAna.leads
    ∧ wbAna.leads.map (fun r => r.name) = ["Ana"]
    ∧ udBerta.name = some "Berta"
    ∧ udBerta.location = some "Miraflores"
    ∧ udBerta.symptoms = ["tos"] := by
  decide

/-- C2 (amended): a qualifying `trackUser` call appends a new `Leads` row
exactly when no row with the same phone and the same formatted date exists;
when such a row exists the `Leads` sheet is left unchanged (the in-place
update applies to the per-user `Organic Users`/`Pauta` row, not to the
`Leads` row).  Either way, a sheet holding at most one row per
(phone, day) pair still does afterwards. -/
theorem trackUser_leads_dedup (wb : UserTrackingService.Workbook)
    (u : UserTrackingService.UserData) (todayDate timeStr isoNow p d : String)
    (hq : (decide (u.symptoms.length > 0) || UserTrackingService.optTruthy u.location) = true)
    (hc : UserTrackingService.leadCount wb.leads p d ≤ 1) :
    ((UserTrackingService.trackUser wb u todayDate timeStr isoNow).leads =
      if UserTrackingService.leadExists wb.leads u.phone todayDate then wb.leads
      else wb.leads ++ [UserTrackingService.mkLeadRow u todayDate timeStr
        (UserTrackingService.optTruthy u.campaignId && !(u.campaignId == some "N/A"))])
    ∧ UserTrackingService.leadCount
        (UserTrackingService.trackUser wb u todayDate timeStr isoNow).leads p d ≤ 1 := by
  have heq := UserTrackingService.trackUser_leads_eq wb u todayDate timeStr isoNow hq
  refine ⟨heq, ?_⟩
  rw [UserTrackingService.leadCount] at hc ⊢
  rw [heq]
  cases hex : UserTrackingService.leadExists wb.leads u.phone todayDate with
  | true => simpa using hc
  | false =>
    simp only [Bool.false_eq_true, if_false]
    rw [List.countP_append]
    by_cases hm : (todayDate == d && u.phone == p) = true
    · simp only [Bool.and_eq_true, beq_iff_eq] at hm
      obtain ⟨hd, hp⟩ := hm
      subst hd
      subst hp
      have h0 : wb.leads.countP
          (fun row => row.date == todayDate && row.phone == u.phone) = 0 := by
        rw [List.countP_eq_zero]
        rw [UserTrackingService.leadExists, List.any_eq_false] at hex
        exact hex
      rw [h0]
      simp [UserTrackingService.mkLeadRow, List.countP_cons]
    · have h1 : List.countP
          (fun row => row.date == d && row.phone == p)
          [UserTrackingService.mkLeadRow u todayDate timeStr
            (UserTrackingService.optTruthy u.campaignId && !(u.campaignId == some "N/A"))] = 0 := by
        simp only [List.countP_cons, List.countP_nil]
        have : ((UserTrackingService.mkLeadRow u todayDate timeStr
            (UserTrackingService.optTruthy u.campaignId && !(u.campaignId == some "N/A"))).date == d &&
            (UserTrackingService.mkLeadRow u todayDate timeStr
              (UserTrackingService.optTruthy u.campaignId && !(u.campaignId == some "N/A"))).phone == p) =
            (todayDate == d && u.phone == p) := rfl
        rw [this]
        simp [hm]
      rw [h1]
      omega

/-- Witness for the amended C2: the concrete sheet `wbAna` already holds
the (phone, day) row, so the qualifying call keeps the sheet unchanged and
the at-most-one invariant holds. -/
theorem trackUser_leads_dedup_witness :
    ((UserTrackingService.trackUser wbAna udBerta "05/10/2025" "10:00" "iso").leads =
      if UserTrackingService.leadExists wbAna.leads udBerta.phone "05/10/2025" then wbAna.leads
      else wbAna.leads ++ [UserTrackingService.mkLeadRow udBerta "05/10/2025" "10:00"
        (UserTrackingService.optTruthy udBerta.campaignId && !(udBerta.campaignId == some "N/A"))])
    ∧ UserTrackingService.leadCount
        (UserTrackingService.trackUser wbAna udBerta "05/10/2025" "10:00" "iso").leads
        "51999888777" "05/10/2025" ≤ 1 :=
  trackUser_leads_dedup wbAna udBerta "05/10/2025" "10:00" "iso" "51999888777" "05/10/2025"
    (by decide) (by decide)

/-- C1 (code bug): there is no fragment buffering.  Two fragments from the
same counterpart 2 s apart (well inside the declared 15 s
`MESSAGE_BUFFER_TIMEOUT` window) produce two separate downstream
invocations, one per fragment body — never one invocation with
`"Hola me duele la cabeza"` — and a fragment arriving while the chat's
processing lock is held is silently dropped (no downstream invocation at
all). -/
theorem whatsapp_fragments_processed_separately :
    (WhatsAppService.handleIncomingMessage wsEmpty wsM1 0 (.ok (some "r1"))).downstreamTexts =
      ["Hola"]
    ∧ (WhatsAppService.handleIncomingMessage
        (WhatsAppService.handleIncomingMessage wsEmpty wsM1 0 (.ok (some "r1"))).state
        wsM2 2000 (.ok (some "r2"))).downstreamTexts = ["me duele la cabeza"]
    ∧ (WhatsAppService.handleIncomingMessage wsEmpty wsM1 0 (.ok (some "r1"))).downstreamTexts
        ++ (WhatsAppService.handleIncomingMessage
            (WhatsAppService.handleIncomingMessage wsEmpty wsM1 0 (.ok (some "r1"))).state
            wsM2 2000 (.ok (some "r2"))).downstreamTexts ≠
        ["Hola me duele la cabeza"]
    ∧ (WhatsAppService.handleIncomingMessage wsLocked wsM2 2000 (.ok (some "r"))).downstreamTexts =
        []
    ∧ (WhatsAppService.handleIncomingMessage wsLocked wsM2 2000 (.ok (some "r"))).ignoredBusy =
        true := by
  refine ⟨rfl, rfl, by decide, rfl, rfl⟩

/-- C10: after any completion of `WhatsAppService.handleIncomingMessage`
for a chat — the busy-ignore early return, a normal return of the inner
handler, or an inner throw — the `processingLock` map holds no entry for
that chat id: the `finally` block deletes it unconditionally. -/
theorem processingLock_cleared_after_handle (st : WhatsAppService.WSState)
    (message : WhatsAppService.WSMessage) (now : Nat)
    (inner : Except Unit (Option String)) :
    (WhatsAppService.handleIncomingMessage st message now inner).state.processingLock
      message.fromId = false := by
  unfold WhatsAppService.handleIncomingMessage
  by_cases hb : st.processingLock message.fromId
  · simp [hb]
  · cases inner with
    | ok response => cases response <;> simp [hb]
    | error e => simp [hb]

/-- C9: an inbound message with `fromMe` set returns `null` and has no
effect: no reply is sent, the conversation-state maps are untouched, and no
workbook sheet gains a row. -/
theorem fromMe_message_ignored (st : MessageHandler.MHState)
    (message : MessageHandler.MHMessage) (now : Nat)
    (todayDate timeStr isoNow : String) (oracle : MessageHandler.MHOracle)
    (h : message.fromMe = true) :
    (MessageHandler.handleIncomingMessage st message now todayDate timeStr isoNow
        oracle).response = none
    ∧ (MessageHandler.handleIncomingMessage st message now todayDate timeStr isoNow
        oracle).st.conv = st.conv
    ∧ (MessageHandler.handleIncomingMessage st message now todayDate timeStr isoNow
        oracle).st.wb = st.wb
    ∧ (MessageHandler.handleIncomingMessage st message now todayDate timeStr isoNow
        oracle).sent = [] := by
  unfold MessageHandler.handleIncomingMessage
  simp [h]

/-- Witness for C9: a concrete own message against a service tracking one
counterpart and a non-empty workbook. -/
theorem fromMe_message_ignored_witness :
    (MessageHandler.handleIncomingMessage mhStW mhMsgOwn 0 "05/10/2025" "10:00" "iso"
        mhOrW).response = none
    ∧ (MessageHandler.handleIncomingMessage mhStW mhMsgOwn 0 "05/10/2025" "10:00" "iso"
        mhOrW).st.conv = mhStW.conv
    ∧ (MessageHandler.handleIncomingMessage mhStW mhMsgOwn 0 "05/10/2025" "10:00" "iso"
        mhOrW).st.wb = mhStW.wb
    ∧ (MessageHandler.handleIncomingMessage mhStW mhMsgOwn 0 "05/10/2025" "10:00" "iso"
        mhOrW).sent = [] :=
  fromMe_message_ignored mhStW mhMsgOwn 0 "05/10/2025" "10:00" "iso" mhOrW rfl

